import Mathlib

/-!
Shallow embedding of `src/RansacLib/ransac.h` (namespace `ransac_lib`), the
LO-RANSAC / MSAC estimation core, together with theorems checking the
natural-language specification against it.

Modelling conventions:

* C++ `double` values are modelled as exact rationals `ℚ`.  The sentinel
  `std::numeric_limits<double>::max()` used to initialise "best score so far"
  variables is modelled as `⊤` in `WithTop ℚ` (the spec reads it as `+∞`).
* C++ `int` is `ℤ`, `uint32_t` counters are `ℕ` (no overflow is reachable in
  the claims considered).
* The solver template parameter is a structure of functions over an abstract
  model type; `defaultModel` stands for the `Model` default constructor the
  source requires.
* `UniformSampling` (from `RansacLib/sampling.h`) and
  `utils::RandomShuffleAndResize` (from `RansacLib/utils.h`) are not part of
  `src/`; they are treated as abstract deterministic streams supplied by an
  environment structure `LOEnv` (`sample`, `shuffle`, `seedRng`).  Theorems
  quantify over every environment, hence cover the real implementations.
* The transcendental middle branch of `RansacBase::NumRequiredIterations`
  (`ceil(log eta / log(1 - eps^s) + 0.5)` over doubles) is embedded twice:
  `NumRequiredIterationsR` over `ℝ` is the direct embedding (used for the
  numerical claim about concrete values), while inside the estimation loop
  the same function appears as `NumRequiredIterationsQ`, identical branch and
  clamping structure, with the transcendental expression supplied by the
  environment as `iterOracle` so that the loop stays executable.  Claims
  about the loop quantify over every oracle and therefore cover the real
  value of that expression.
-/

namespace RansacLib

/-- Score domain: `double` values as `ℚ`, with `⊤` standing for the
`std::numeric_limits<double>::max()` sentinel. -/
abbrev Score : Type := WithTop ℚ

/-- Embedding of the `Solver` template-parameter contract (ransac.h §
class comment and spec §4.1).  `MinimalSolver` returns the reported count
together with the contents of the `estimated_models` output vector;
`NonMinimalSolver`'s `bool` result plus output model is an `Option`. -/
structure Solver (Model : Type) where
  min_sample_size : ℤ
  non_minimal_sample_size : ℤ
  num_data : ℤ
  defaultModel : Model
  MinimalSolver : List ℤ → ℤ × List Model
  NonMinimalSolver : List ℤ → Option Model
  LeastSquares : List ℤ → Model → Model
  EvaluateModelOnPoint : Model → ℤ → ℚ

/-- Embedding of `LORansacOptions` (ransac.h lines 47-80), with the inherited
`RansacOptions` fields flattened in. -/
structure LORansacOptions where
  min_num_iterations : ℕ
  max_num_iterations : ℕ
  success_probability : ℚ
  squared_inlier_threshold : ℚ
  random_seed : ℕ
  num_lo_steps : ℤ
  threshold_multiplier : ℚ
  num_lsq_iterations : ℤ
  min_sample_multiplicator : ℤ
  non_min_sample_multiplier : ℤ

/-- Embedding of `RansacStatistics` (ransac.h lines 82-88). -/
structure RansacStatistics where
  num_iterations : ℕ
  best_num_inliers : ℤ
  best_model_score : Score
  inlier_ratio : ℚ
  inlier_indices : List ℤ
deriving DecidableEq

/-- Environment bundling the collaborators of the estimation loop that live
outside `src/` (sampler and shuffler streams) plus the transcendental
iteration-count expression (see the header comment).  `R` is the state type
of the `std::mt19937` engine used inside local optimization. -/
structure LOEnv (Model R : Type) where
  /-- Value written by `UniformSampling::Sample` at outer iteration `t`. -/
  sample : ℕ → List ℤ
  /-- `utils::RandomShuffleAndResize(k, rng, v)`: new vector contents and
  advanced engine state. -/
  shuffle : ℤ → List ℤ → R → List ℤ × R
  /-- `rng.seed(seed)` for a fresh `std::mt19937`. -/
  seedRng : ℕ → R
  /-- `ceil(log(1 - success_probability) / log(1 - ratio^sample_size) + 0.5)`
  cast to `uint32_t`, as a function of the inlier ratio. -/
  iterOracle : ℚ → ℕ

/-- Embedding of `RansacBase::ResetStatistics` (ransac.h lines 92-99):
every field is overwritten. -/
def ResetStatistics (_statistics : RansacStatistics) : RansacStatistics :=
  { best_num_inliers := 0
    best_model_score := ⊤
    num_iterations := 0
    inlier_ratio := 0
    inlier_indices := [] }

open Classical in
/-- Embedding of `RansacBase::NumRequiredIterations` (ransac.h lines
104-126) over `ℝ`, the direct transcription: `^` on the inlier ratio is
`Real.rpow` (for `std::pow` with a `double` exponent), the
`static_cast<uint32_t>` of the ceiling is `Int.toNat`. -/
noncomputable def NumRequiredIterationsR (inlier_ratio prob_missing_best_model : ℝ)
    (sample_size : ℤ) (min_iterations max_iterations : ℕ) : ℕ :=
  if inlier_ratio ≤ 0 then max_iterations
  else if 1 ≤ inlier_ratio then min_iterations
  else
    let kProbNonInlierSample : ℝ := 1 - inlier_ratio ^ (sample_size : ℝ)
    let num_iters : ℝ :=
      Real.log prob_missing_best_model / Real.log kProbNonInlierSample + 0.5
    Nat.max min_iterations (Nat.min (Int.toNat ⌈num_iters⌉) max_iterations)

/-- `RansacBase::NumRequiredIterations` as used by the estimation loop: the
ratio argument is the rational `best_num_inliers / num_data`, and the value
of the transcendental middle expression is supplied by `oracle` (see header
comment); branch structure and clamping are those of ransac.h lines
104-126. -/
def NumRequiredIterationsQ (oracle : ℚ → ℕ) (inlier_ratio : ℚ)
    (min_iterations max_iterations : ℕ) : ℕ :=
  if inlier_ratio ≤ 0 then max_iterations
  else if 1 ≤ inlier_ratio then min_iterations
  else Nat.max min_iterations (Nat.min (oracle inlier_ratio) max_iterations)

/-- The index list `0, 1, ..., num_data() - 1` iterated by the scoring and
inlier-collection loops (empty when `num_data ≤ 0`, as in the C++ `for`). -/
def solverIndices {Model : Type} (solver : Solver Model) : List ℤ :=
  (List.range solver.num_data.toNat).map Int.ofNat

/-- Embedding of `LocallyOptimizedMSAC::ComputeScore` (ransac.h lines
251-254), the MSAC top-hat per-point score. -/
def ComputeScore (squared_error squared_error_threshold : ℚ) : ℚ :=
  min squared_error squared_error_threshold

/-- Embedding of `LocallyOptimizedMSAC::ScoreModel` (ransac.h lines 240-248):
sum of per-point top-hat contributions over all data points. -/
def ScoreModel {Model : Type} (solver : Solver Model) (model : Model)
    (squared_inlier_threshold : ℚ) : ℚ :=
  ((solverIndices solver).map
    (fun i => ComputeScore (solver.EvaluateModelOnPoint model i)
      squared_inlier_threshold)).sum

/-- Embedding of `LocallyOptimizedMSAC::GetInliers` with `inliers == nullptr`
(ransac.h lines 260-268): the counting loop. -/
def GetInliersCount {Model : Type} (solver : Solver Model) (model : Model)
    (squared_inlier_threshold : ℚ) : ℤ :=
  (solverIndices solver).foldl
    (fun num_inliers i =>
      if solver.EvaluateModelOnPoint model i < squared_inlier_threshold then
        num_inliers + 1
      else num_inliers) 0

/-- Embedding of `LocallyOptimizedMSAC::GetInliers` with an output vector
(ransac.h lines 269-280): the loop counts and pushes indices; the result is
the returned count together with the final vector contents. -/
def GetInliers {Model : Type} (solver : Solver Model) (model : Model)
    (squared_inlier_threshold : ℚ) : ℤ × List ℤ :=
  (solverIndices solver).foldl
    (fun acc i =>
      if solver.EvaluateModelOnPoint model i < squared_inlier_threshold then
        (acc.1 + 1, acc.2 ++ [i])
      else acc) (0, [])

/-- Embedding of `LocallyOptimizedMSAC::UpdateBestModel` (ransac.h lines
366-372): strict `<` comparison, incumbent wins ties. -/
def UpdateBestModel {Model : Type} (score_curr : Score) (m_curr : Model)
    (score_best : Score) (m_best : Model) : Score × Model :=
  if score_curr < score_best then (score_curr, m_curr) else (score_best, m_best)

/-- Auxiliary loop of `GetBestEstimatedModelId` (ransac.h lines 229-237),
threading the running best score and model index. -/
def GetBestEstimatedModelIdAux {Model : Type} (solver : Solver Model)
    (squared_inlier_threshold : ℚ) :
    List Model → ℕ → Score × ℕ → Score × ℕ
  | [], _, best => best
  | m :: ms, idx, best =>
    let score : Score := ((ScoreModel solver m squared_inlier_threshold : ℚ) : Score)
    GetBestEstimatedModelIdAux solver squared_inlier_threshold ms (idx + 1)
      (if score < best.1 then (score, idx) else best)

/-- Embedding of `LocallyOptimizedMSAC::GetBestEstimatedModelId` (ransac.h
lines 222-238): best (lowest) score over the estimated models and the index
of the model that attains it (`⊤` and `0` when the list is empty). -/
def GetBestEstimatedModelId {Model : Type} (solver : Solver Model)
    (models : List Model) (squared_inlier_threshold : ℚ) : Score × ℕ :=
  GetBestEstimatedModelIdAux solver squared_inlier_threshold models 0 (⊤, 0)

/-- Embedding of `LocallyOptimizedMSAC::LeastSquaresFit` (ransac.h lines
354-364): collect inliers under `thresh`, truncate via the partial shuffle to
`min(min_sample_multiplicator * min_sample_size, num_inliers)`, refine.
Returns the refined model and the advanced RNG state. -/
def LeastSquaresFit {Model R : Type} (env : LOEnv Model R)
    (options : LORansacOptions) (thresh : ℚ) (solver : Solver Model)
    (rng : R) (model : Model) : Model × R :=
  let kLSqSampleSize : ℤ := options.min_sample_multiplicator * solver.min_sample_size
  let gi := GetInliers solver model thresh
  let lsq_data_size : ℤ := min kLSqSampleSize gi.1
  let sh := env.shuffle lsq_data_size gi.2 rng
  (solver.LeastSquares sh.1 model, sh.2)

/-- State threaded through the local-optimization loops: the refined model,
its score, and the `std::mt19937` state. -/
structure LOState (Model R : Type) where
  refined : Model
  score_refined : Score
  rng : R

/-- Embedding of the inner iterative least-squares loop of
`LocalOptimization` (ransac.h lines 344-350).  Arguments: remaining pass
count, current threshold `thresh`, decrement `d` (`thresh_mult_update`),
current `m_non_min`, and the loop state.  Besides the final state it returns
the (ghost) list of thresholds handed to `LeastSquaresFit`, one per pass, in
order; this trace feeds back into nothing. -/
def irlsLoop {Model R : Type} (env : LOEnv Model R)
    (options : LORansacOptions) (solver : Solver Model) (d : ℚ) :
    ℕ → ℚ → Model → LOState Model R → LOState Model R × List ℚ
  | 0, _, _, st => (st, [])
  | k + 1, thresh, m, st =>
    let fit := LeastSquaresFit env options thresh solver st.rng m
    let score := ScoreModel solver fit.1 options.squared_inlier_threshold
    let ub := UpdateBestModel ((score : ℚ) : Score) fit.1 st.score_refined st.refined
    let rest := irlsLoop env options solver d k (thresh - d) fit.1
      { refined := ub.2, score_refined := ub.1, rng := fit.2 }
    (rest.1, thresh :: rest.2)

/-- Embedding of one iteration of the LO-step loop of `LocalOptimization`
(ransac.h lines 327-351): draw a non-minimal sample from `inliers_base`,
run `NonMinimalSolver` (skip on failure), score and update, one
least-squares fit at the inlier threshold, then the annealed IRLS loop.
Besides the final state it returns the (ghost) list of thresholds handed to
`LeastSquaresFit` during this step ( `[]` when the non-minimal solver
fails). -/
def loStep {Model R : Type} (env : LOEnv Model R) (options : LORansacOptions)
    (solver : Solver Model) (inliers_base : List ℤ) (kNonMinSampleSize : ℤ)
    (st : LOState Model R) : LOState Model R × List ℚ :=
  let kSqInThresh := options.squared_inlier_threshold
  let kThreshMult := options.threshold_multiplier
  let sh := env.shuffle kNonMinSampleSize inliers_base st.rng
  match solver.NonMinimalSolver sh.1 with
  | none => ({ st with rng := sh.2 }, [])
  | some m_non_min =>
    let score := ScoreModel solver m_non_min kSqInThresh
    let ub := UpdateBestModel ((score : ℚ) : Score) m_non_min st.score_refined st.refined
    let fit := LeastSquaresFit env options kSqInThresh solver sh.2 m_non_min
    let thresh := kThreshMult * kSqInThresh
    let thresh_mult_update :=
      (kThreshMult - 1) * kSqInThresh / ((options.num_lsq_iterations - 1 : ℤ) : ℚ)
    let res := irlsLoop env options solver thresh_mult_update
      options.num_lsq_iterations.toNat thresh fit.1
      { refined := ub.2, score_refined := ub.1, rng := fit.2 }
    (res.1, kSqInThresh :: res.2)

/-- The LO-step loop of `LocalOptimization` (ransac.h lines 327-351), run
`num_lo_steps` times. -/
def loStepsLoop {Model R : Type} (env : LOEnv Model R)
    (options : LORansacOptions) (solver : Solver Model)
    (inliers_base : List ℤ) (kNonMinSampleSize : ℤ) :
    ℕ → LOState Model R → LOState Model R
  | 0, st => st
  | r + 1, st =>
    loStepsLoop env options solver inliers_base kNonMinSampleSize r
      (loStep env options solver inliers_base kNonMinSampleSize st).1

/-- Embedding of `LocallyOptimizedMSAC::LocalOptimization` (ransac.h lines
284-352).  Returns `(refined_model, score_refined_model)`. -/
def LocalOptimization {Model R : Type} (env : LOEnv Model R)
    (options : LORansacOptions) (solver : Solver Model)
    (best_minimal_model : Model) (score_best_minimal_model : Score) :
    Model × Score :=
  let score_refined_model := score_best_minimal_model
  let refined_model := best_minimal_model
  if solver.non_minimal_sample_size > solver.num_data then
    (refined_model, score_refined_model)
  else
    let kSqInThresh := options.squared_inlier_threshold
    let kThreshMult := options.threshold_multiplier
    let rng0 := env.seedRng options.random_seed
    let fit := LeastSquaresFit env options (kSqInThresh * kThreshMult) solver rng0
      best_minimal_model
    let score := ScoreModel solver fit.1 kSqInThresh
    let ub := UpdateBestModel ((score : ℚ) : Score) fit.1 score_refined_model refined_model
    let gi := GetInliers solver fit.1 kSqInThresh
    let inliers_base := gi.2
    let kNonMinSampleSize : ℤ :=
      max solver.non_minimal_sample_size
        (min (solver.non_minimal_sample_size * options.non_min_sample_multiplier)
          ((inliers_base.length : ℤ) / 2))
    let fin := loStepsLoop env options solver inliers_base kNonMinSampleSize
      options.num_lo_steps.toNat
      { refined := ub.2, score_refined := ub.1, rng := fit.2 }
    (fin.refined, fin.score_refined)

/-- State threaded through the outer sampling loop of `EstimateModel`:
the statistics (whose `num_iterations` field is the loop counter), the
global best model, the best minimal-model score and model, and the adaptive
iteration budget `max_num_iterations` (the local variable of ransac.h line
156, not the option). -/
structure EMState (Model : Type) where
  stats : RansacStatistics
  best_model : Model
  best_min_model_score : Score
  best_minimal_model : Model
  max_num_iterations : ℕ

/-- Embedding of the outer sampling loop of `EstimateModel` (ransac.h lines
168-216).  `fuel` bounds the recursion; `EstimateModel` supplies
`max(options.max_num_iterations, options.min_num_iterations)`, which always
dominates the remaining trip count because the recomputed budget never
exceeds it, so exhaustion coincides with the loop condition failing. -/
def emLoop {Model R : Type} (env : LOEnv Model R) (options : LORansacOptions)
    (solver : Solver Model) : ℕ → EMState Model → EMState Model
  | 0, st => st
  | fuel + 1, st =>
    if st.stats.num_iterations < st.max_num_iterations then
      let minimal_sample := env.sample st.stats.num_iterations
      let ms := solver.MinimalSolver minimal_sample
      if ms.1 ≤ 0 then
        emLoop env options solver fuel
          { st with stats := { st.stats with num_iterations := st.stats.num_iterations + 1 } }
      else
        let best_local := GetBestEstimatedModelId solver ms.2 options.squared_inlier_threshold
        if best_local.1 < st.best_min_model_score then
          let best_minimal_model := ms.2.getD best_local.2 solver.defaultModel
          let lo := LocalOptimization env options solver best_minimal_model best_local.1
          -- Source line 201 passes `best_minimal_model`, not `refined_model`,
          -- to `UpdateBestModel`; the embedding reproduces that.
          let ub := UpdateBestModel lo.2 best_minimal_model
            st.stats.best_model_score st.best_model
          let gi := GetInliers solver ub.2 options.squared_inlier_threshold
          let ratio : ℚ := (gi.1 : ℚ) / (solver.num_data : ℚ)
          let T := NumRequiredIterationsQ env.iterOracle ratio
            options.min_num_iterations options.max_num_iterations
          emLoop env options solver fuel
            { stats :=
                { num_iterations := st.stats.num_iterations + 1
                  best_num_inliers := gi.1
                  best_model_score := ub.1
                  inlier_ratio := ratio
                  inlier_indices := gi.2 }
              best_model := ub.2
              best_min_model_score := best_local.1
              best_minimal_model := best_minimal_model
              max_num_iterations := T }
        else
          emLoop env options solver fuel
            { st with stats := { st.stats with num_iterations := st.stats.num_iterations + 1 } }
    else st

/-- Embedding of `LocallyOptimizedMSAC::EstimateModel` (ransac.h lines
140-219).  `best_model0` and `statistics0` are the values behind the
`best_model` / `statistics` pointers on entry; the result is the returned
inlier count together with their values on exit. -/
def EstimateModel {Model R : Type} (env : LOEnv Model R)
    (options : LORansacOptions) (solver : Solver Model) (best_model0 : Model)
    (statistics0 : RansacStatistics) : ℤ × Model × RansacStatistics :=
  let stats := ResetStatistics statistics0
  if solver.min_sample_size > solver.num_data ∨ solver.min_sample_size ≤ 0 then
    (0, best_model0, stats)
  else
    let fuel := Nat.max options.max_num_iterations options.min_num_iterations
    let fin := emLoop env options solver fuel
      { stats := stats
        best_model := best_model0
        best_min_model_score := ⊤
        best_minimal_model := solver.defaultModel
        max_num_iterations := fuel }
    (fin.stats.best_num_inliers, fin.best_model, fin.stats)

/-! ### Concrete instantiations used to exercise the embedding -/

/-- A deterministic environment over `Model := ℚ`, `R := Unit`: the sampler
always proposes index `0`, the partial shuffle is the identity, and the
transcendental iteration-count expression is `0` (its value is irrelevant to
the concrete runs below, which only reach the `ratio ≤ 0` branch). -/
def exEnv : LOEnv ℚ Unit :=
  { sample := fun _ => [0]
    shuffle := fun _ v _ => (v, ())
    seedRng := fun _ => ()
    iterOracle := fun _ => 0 }

/-- Options for the concrete runs: a single outer iteration, threshold
multiplier `2`, two IRLS passes, inlier threshold `τ² = 1`. -/
def exOpts : LORansacOptions :=
  { min_num_iterations := 1
    max_num_iterations := 1
    success_probability := 9999 / 10000
    squared_inlier_threshold := 1
    random_seed := 0
    num_lo_steps := 1
    threshold_multiplier := 2
    num_lsq_iterations := 2
    min_sample_multiplicator := 7
    non_min_sample_multiplier := 3 }

/-- A one-point solver over `Model := ℚ` where a model's residual on the
single data point is the model value itself.  The minimal solver proposes
model `5` (score `min(5, τ²) = 1`), the non-minimal solver proposes model
`0` (score `0`), and least squares is the identity, so local optimization
returns refined model `0` with score `0` while the best minimal model stays
`5`. -/
def bugSolver : Solver ℚ :=
  { min_sample_size := 1
    non_minimal_sample_size := 1
    num_data := 1
    defaultModel := 0
    MinimalSolver := fun _ => (1, [5])
    NonMinimalSolver := fun _ => some 0
    LeastSquares := fun _ m => m
    EvaluateModelOnPoint := fun m _ => m }

/-- A solver whose minimal solver always reports zero models. -/
def noModelSolver : Solver ℚ :=
  { min_sample_size := 1
    non_minimal_sample_size := 1
    num_data := 1
    defaultModel := 0
    MinimalSolver := fun _ => (0, [])
    NonMinimalSolver := fun _ => none
    LeastSquares := fun _ m => m
    EvaluateModelOnPoint := fun m _ => m }

/-- A solver with fewer data points than its minimal sample size. -/
def tooFewDataSolver : Solver ℚ :=
  { min_sample_size := 2
    non_minimal_sample_size := 2
    num_data := 1
    defaultModel := 0
    MinimalSolver := fun _ => (0, [])
    NonMinimalSolver := fun _ => none
    LeastSquares := fun _ m => m
    EvaluateModelOnPoint := fun m _ => m }

/-- A three-point solver with all residuals zero, for exercising score
bounds. -/
def zeroResidualSolver : Solver ℚ :=
  { min_sample_size := 1
    non_minimal_sample_size := 1
    num_data := 3
    defaultModel := 0
    MinimalSolver := fun _ => (1, [0])
    NonMinimalSolver := fun _ => some 0
    LeastSquares := fun _ m => m
    EvaluateModelOnPoint := fun _ _ => 0 }

/-- An arbitrary nonzero statistics record, for exercising the claim that
the incoming statistics contents are irrelevant. -/
def dirtyStats : RansacStatistics :=
  { num_iterations := 77
    best_num_inliers := -3
    best_model_score := ((9 : ℚ) : Score)
    inlier_ratio := 5
    inlier_indices := [1, 2, 3] }

/-! ### Helper lemmas -/

lemma mem_solverIndices {Model : Type} (solver : Solver Model) (i : ℤ) :
    i ∈ solverIndices solver ↔ 0 ≤ i ∧ i < solver.num_data := by
  unfold solverIndices
  rw [List.mem_map]
  simp only [Int.ofNat_eq_coe]
  constructor
  · rintro ⟨n, hn, rfl⟩
    rw [List.mem_range] at hn
    omega
  · rintro ⟨h0, h1⟩
    refine ⟨i.toNat, ?_, ?_⟩
    · rw [List.mem_range]
      omega
    · omega

lemma pairwise_solverIndices {Model : Type} (solver : Solver Model) :
    List.Pairwise (· < ·) (solverIndices solver) := by
  unfold solverIndices
  refine List.pairwise_map.2 ?_
  refine (List.pairwise_lt_range _).imp ?_
  intro a b h
  simp only [Int.ofNat_eq_coe]
  exact_mod_cast h

lemma getInliers_foldl {Model : Type} (solver : Solver Model) (model : Model)
    (thr : ℚ) (l : List ℤ) : ∀ (c : ℤ) (acc : List ℤ),
    l.foldl
      (fun acc i =>
        if solver.EvaluateModelOnPoint model i < thr then (acc.1 + 1, acc.2 ++ [i])
        else acc) (c, acc)
      = (c + ((l.filter fun i =>
            decide (solver.EvaluateModelOnPoint model i < thr)).length : ℤ),
         acc ++ l.filter fun i => decide (solver.EvaluateModelOnPoint model i < thr)) := by
  induction l with
  | nil => intro c acc; simp
  | cons i is ih =>
    intro c acc
    by_cases h : solver.EvaluateModelOnPoint model i < thr
    · simp only [List.foldl_cons, if_pos h, ih, List.filter_cons,
        decide_eq_true_eq, h, if_pos, List.length_cons]
      refine Prod.ext ?_ ?_
      · simp; ring
      · simp
    · simp only [List.foldl_cons, if_neg h, ih, List.filter_cons,
        decide_eq_true_eq, h, if_neg]
      simp [h]

lemma getInliersCount_foldl {Model : Type} (solver : Solver Model) (model : Model)
    (thr : ℚ) (l : List ℤ) : ∀ (c : ℤ),
    l.foldl
      (fun num_inliers i =>
        if solver.EvaluateModelOnPoint model i < thr then num_inliers + 1
        else num_inliers) c
      = c + ((l.filter fun i =>
          decide (solver.EvaluateModelOnPoint model i < thr)).length : ℤ) := by
  induction l with
  | nil => intro c; simp
  | cons i is ih =>
    intro c
    by_cases h : solver.EvaluateModelOnPoint model i < thr
    · simp only [List.foldl_cons, if_pos h, ih, List.filter_cons,
        decide_eq_true_eq, h, if_pos, List.length_cons]
      push_cast
      ring
    · simp [List.foldl_cons, if_neg h, ih, h]

lemma GetInliers_eq {Model : Type} (solver : Solver Model) (model : Model) (thr : ℚ) :
    GetInliers solver model thr
      = ((((solverIndices solver).filter fun i =>
            decide (solver.EvaluateModelOnPoint model i < thr)).length : ℤ),
         (solverIndices solver).filter fun i =>
            decide (solver.EvaluateModelOnPoint model i < thr)) := by
  unfold GetInliers
  rw [getInliers_foldl]
  simp

lemma GetInliersCount_eq {Model : Type} (solver : Solver Model) (model : Model) (thr : ℚ) :
    GetInliersCount solver model thr
      = (((solverIndices solver).filter fun i =>
            decide (solver.EvaluateModelOnPoint model i < thr)).length : ℤ) := by
  unfold GetInliersCount
  rw [getInliersCount_foldl]
  simp

lemma UpdateBestModel_fst_le {Model : Type} (sc : Score) (mc : Model)
    (sb : Score) (mb : Model) : (UpdateBestModel sc mc sb mb).1 ≤ sb := by
  unfold UpdateBestModel
  split
  · exact le_of_lt (by assumption)
  · exact le_refl _

lemma irlsLoop_score_le {Model R : Type} (env : LOEnv Model R)
    (options : LORansacOptions) (solver : Solver Model) (d : ℚ) (k : ℕ) :
    ∀ (thresh : ℚ) (m : Model) (st : LOState Model R),
      (irlsLoop env options solver d k thresh m st).1.score_refined
        ≤ st.score_refined := by
  induction k with
  | zero => intro thresh m st; exact le_refl _
  | succ k ih =>
    intro thresh m st
    simp only [irlsLoop]
    exact le_trans (ih _ _ _) (UpdateBestModel_fst_le _ _ _ _)

lemma loStep_score_le {Model R : Type} (env : LOEnv Model R)
    (options : LORansacOptions) (solver : Solver Model)
    (inliers_base : List ℤ) (kNonMinSampleSize : ℤ) (st : LOState Model R) :
    (loStep env options solver inliers_base kNonMinSampleSize st).1.score_refined
      ≤ st.score_refined := by
  unfold loStep
  cases h : solver.NonMinimalSolver (env.shuffle kNonMinSampleSize inliers_base st.rng).1 with
  | none => simp [h]
  | some m => simp only [h]
              exact le_trans (irlsLoop_score_le _ _ _ _ _ _ _ _)
                (UpdateBestModel_fst_le _ _ _ _)

lemma loStepsLoop_score_le {Model R : Type} (env : LOEnv Model R)
    (options : LORansacOptions) (solver : Solver Model)
    (inliers_base : List ℤ) (kNonMinSampleSize : ℤ) (r : ℕ) :
    ∀ (st : LOState Model R),
      (loStepsLoop env options solver inliers_base kNonMinSampleSize r st).score_refined
        ≤ st.score_refined := by
  induction r with
  | zero => intro st; exact le_refl _
  | succ r ih =>
    intro st
    exact le_trans (ih _) (loStep_score_le _ _ _ _ _ _)

lemma natMax_eq_left {a b : ℕ} (h : b ≤ a) : Nat.max a b = a := max_eq_left h

lemma numReqIterQ_ge (oracle : ℚ → ℕ) (ε : ℚ) (min_i max_i : ℕ)
    (h : min_i ≤ max_i) : min_i ≤ NumRequiredIterationsQ oracle ε min_i max_i := by
  unfold NumRequiredIterationsQ
  split_ifs
  · exact h
  · exact le_refl _
  · exact Nat.le_max_left _ _

lemma emLoop_no_models {Model R : Type} (env : LOEnv Model R)
    (options : LORansacOptions) (solver : Solver Model)
    (h : ∀ s, (solver.MinimalSolver s).1 ≤ 0 ∨ (solver.MinimalSolver s).2 = [])
    (fuel : ℕ) : ∀ st : EMState Model,
      (emLoop env options solver fuel st).best_model = st.best_model ∧
      (emLoop env options solver fuel st).stats.best_model_score
        = st.stats.best_model_score ∧
      (emLoop env options solver fuel st).stats.best_num_inliers
        = st.stats.best_num_inliers := by
  induction fuel with
  | zero => intro st; exact ⟨rfl, rfl, rfl⟩
  | succ fuel ih =>
    intro st
    simp only [emLoop]
    split_ifs with hlt hc hbest
    · exact ih _
    · exfalso
      rcases h (env.sample st.stats.num_iterations) with hc2 | hm
      · exact hc hc2
      · rw [hm] at hbest
        simp only [GetBestEstimatedModelId, GetBestEstimatedModelIdAux] at hbest
        exact not_top_lt hbest
    · exact ih _
    · exact ⟨rfl, rfl, rfl⟩

lemma emLoop_iter_bounds {Model R : Type} (env : LOEnv Model R)
    (options : LORansacOptions) (solver : Solver Model)
    (hmm : options.min_num_iterations ≤ options.max_num_iterations) (fuel : ℕ) :
    ∀ st : EMState Model,
      fuel + st.stats.num_iterations
        = Nat.max options.max_num_iterations options.min_num_iterations →
      options.min_num_iterations ≤ st.max_num_iterations →
      options.min_num_iterations
          ≤ (emLoop env options solver fuel st).stats.num_iterations ∧
      (emLoop env options solver fuel st).stats.num_iterations
          ≤ options.max_num_iterations := by
  induction fuel with
  | zero =>
    intro st hfuel hT
    rw [natMax_eq_left hmm] at hfuel
    simp only [emLoop]
    omega
  | succ fuel ih =>
    intro st hfuel hT
    rw [natMax_eq_left hmm] at hfuel
    simp only [emLoop]
    split_ifs with hlt hc hbest
    · refine ih _ ?_ ?_
      · rw [natMax_eq_left hmm]
        show fuel + (st.stats.num_iterations + 1) = _
        omega
      · exact hT
    · refine ih _ ?_ ?_
      · rw [natMax_eq_left hmm]
        show fuel + (st.stats.num_iterations + 1) = _
        omega
      · exact numReqIterQ_ge _ _ _ _ hmm
    · refine ih _ ?_ ?_
      · rw [natMax_eq_left hmm]
        show fuel + (st.stats.num_iterations + 1) = _
        omega
      · exact hT
    · omega

/-! ### Claim theorems -/

/-- Claim C2: for every environment, options, solver, input model and input
score, the score returned by `LocalOptimization` is at most the input
score (the input model is itself a candidate, so the output is never worse
than the input). -/
theorem C2_local_optimization_no_regression {Model R : Type} (env : LOEnv Model R)
    (options : LORansacOptions) (solver : Solver Model)
    (best_minimal_model : Model) (score_best_minimal_model : Score) :
    (LocalOptimization env options solver best_minimal_model
        score_best_minimal_model).2 ≤ score_best_minimal_model := by
  unfold LocalOptimization
  split
  · exact le_refl _
  · exact le_trans (loStepsLoop_score_le _ _ _ _ _ _ _)
      (UpdateBestModel_fst_le _ _ _ _)

/-- Claim C7: `GetInliers` collects exactly the indices `i ∈ [0, N)` with
`EvaluateModelOnPoint(model, i) < threshold` (strict), in ascending order,
without duplicates; the returned count equals the length of the collected
vector; and the counting variant (`inliers == nullptr`) returns the same
count. -/
theorem C7_get_inliers_characterization {Model : Type} (solver : Solver Model)
    (model : Model) (thr : ℚ) :
    (∀ i : ℤ, i ∈ (GetInliers solver model thr).2
        ↔ 0 ≤ i ∧ i < solver.num_data ∧ solver.EvaluateModelOnPoint model i < thr) ∧
    List.Pairwise (· < ·) (GetInliers solver model thr).2 ∧
    (GetInliers solver model thr).2.Nodup ∧
    ((GetInliers solver model thr).2.length : ℤ) = (GetInliers solver model thr).1 ∧
    GetInliersCount solver model thr = (GetInliers solver model thr).1 := by
  rw [GetInliers_eq, GetInliersCount_eq]
  refine ⟨?_, ?_, ?_, rfl, rfl⟩
  · intro i
    rw [List.mem_filter, mem_solverIndices, decide_eq_true_eq]
    tauto
  · exact (pairwise_solverIndices solver).sublist (List.filter_sublist _)
  · exact ((pairwise_solverIndices solver).sublist (List.filter_sublist _)).imp ne_of_lt

/-- Claim C6: when `min_sample_size > num_data` or `min_sample_size ≤ 0`,
`EstimateModel` returns `0` immediately, leaving `*best_model` untouched,
with zeroed statistics: `num_iterations = 0`, `best_num_inliers = 0`,
`inlier_ratio = 0`, empty `inlier_indices`. -/
theorem C6_insufficient_data {Model R : Type} (env : LOEnv Model R)
    (options : LORansacOptions) (solver : Solver Model) (best_model0 : Model)
    (statistics0 : RansacStatistics)
    (h : solver.min_sample_size > solver.num_data ∨ solver.min_sample_size ≤ 0) :
    EstimateModel env options solver best_model0 statistics0
      = (0, best_model0,
          { num_iterations := 0, best_num_inliers := 0, best_model_score := ⊤,
            inlier_ratio := 0, inlier_indices := [] }) := by
  unfold EstimateModel
  rw [if_pos h]
  rfl

/-- Claim C10: the return value and the final contents of `*best_model` and
`*statistics` do not depend on the contents of `*statistics` on entry:
`ResetStatistics` overwrites every field before use. -/
theorem C10_statistics_input_irrelevant {Model R : Type} (env : LOEnv Model R)
    (options : LORansacOptions) (solver : Solver Model) (best_model0 : Model)
    (stats1 stats2 : RansacStatistics) :
    EstimateModel env options solver best_model0 stats1
      = EstimateModel env options solver best_model0 stats2 := rfl

/-- Claim C5 (amended): when no candidate model is ever produced (every
`MinimalSolver` call reports a count `≤ 0` or an empty model list — in
particular when it always returns `0`), `EstimateModel` returns `0`, leaves
`*best_model` unchanged (so it holds the caller's default-constructed model
exactly when the caller default-constructed it), and reports
`best_num_inliers = 0` and `best_model_score` equal to the infinite
sentinel. -/
theorem C5_no_improvement {Model R : Type} (env : LOEnv Model R)
    (options : LORansacOptions) (solver : Solver Model) (best_model0 : Model)
    (statistics0 : RansacStatistics)
    (h : ∀ s, (solver.MinimalSolver s).1 ≤ 0 ∨ (solver.MinimalSolver s).2 = []) :
    (EstimateModel env options solver best_model0 statistics0).1 = 0 ∧
    (EstimateModel env options solver best_model0 statistics0).2.1 = best_model0 ∧
    (EstimateModel env options solver best_model0
        statistics0).2.2.best_num_inliers = 0 ∧
    (EstimateModel env options solver best_model0
        statistics0).2.2.best_model_score = ⊤ := by
  simp only [EstimateModel]
  split_ifs with hs
  · exact ⟨rfl, rfl, rfl, rfl⟩
  · obtain ⟨h1, h2, h3⟩ := emLoop_no_models env options solver h
      (Nat.max options.max_num_iterations options.min_num_iterations)
      { stats := ResetStatistics statistics0
        best_model := best_model0
        best_min_model_score := ⊤
        best_minimal_model := solver.defaultModel
        max_num_iterations :=
          Nat.max options.max_num_iterations options.min_num_iterations }
    exact ⟨h3, h1, h3, h2⟩

/-- Claim C5, counterexample to the original wording: on the
no-candidate-ever path `EstimateModel` does not write a default-constructed
model into `*best_model`; it leaves the caller's value there (here `7`,
while the solver's default-constructed model is `0`). -/
theorem C5_counterexample :
    (EstimateModel exEnv exOpts noModelSolver 7 dirtyStats).2.1 = 7 ∧
    (7 : ℚ) ≠ noModelSolver.defaultModel := by
  constructor
  · rfl
  · intro h
    exact absurd (congrArg Rat.num h) (by decide)

/-- Claim C8: under the entry preconditions (`0 < min_sample_size ≤
num_data`) and `min_num_iterations ≤ max_num_iterations`, the final
`num_iterations` lies in `[min_num_iterations, max_num_iterations]`, and
the recomputed adaptive budget is never set below `min_num_iterations`
for any inlier ratio. -/
theorem C8_iteration_bounds {Model R : Type} (env : LOEnv Model R)
    (options : LORansacOptions) (solver : Solver Model) (best_model0 : Model)
    (statistics0 : RansacStatistics)
    (h1 : 0 < solver.min_sample_size)
    (h2 : solver.min_sample_size ≤ solver.num_data)
    (h3 : options.min_num_iterations ≤ options.max_num_iterations) :
    (options.min_num_iterations
        ≤ (EstimateModel env options solver best_model0
            statistics0).2.2.num_iterations ∧
     (EstimateModel env options solver best_model0
         statistics0).2.2.num_iterations ≤ options.max_num_iterations) ∧
    (∀ ε : ℚ, options.min_num_iterations
        ≤ NumRequiredIterationsQ env.iterOracle ε options.min_num_iterations
            options.max_num_iterations) := by
  constructor
  · simp only [EstimateModel]
    rw [if_neg (by omega :
      ¬(solver.min_sample_size > solver.num_data ∨ solver.min_sample_size ≤ 0))]
    refine emLoop_iter_bounds env options solver h3 _ _ ?_ (le_max_right _ _)
    show Nat.max options.max_num_iterations options.min_num_iterations + 0 = _
    omega
  · intro ε
    exact numReqIterQ_ge _ _ _ _ h3

/-- Claim C9: whenever every per-point squared residual of a model is
non-negative (and the threshold is non-negative and `num_data ≥ 0`, as the
options and solver contracts require), the MSAC score lies in
`[0, num_data · τ²]`. -/
theorem C9_score_bounds {Model : Type} (solver : Solver Model) (m : Model)
    (thr : ℚ) (h1 : ∀ i : ℤ, 0 ≤ solver.EvaluateModelOnPoint m i)
    (h2 : 0 ≤ thr) (h3 : 0 ≤ solver.num_data) :
    0 ≤ ScoreModel solver m thr ∧
    ScoreModel solver m thr ≤ (solver.num_data : ℚ) * thr := by
  constructor
  · apply List.sum_nonneg
    intro x hx
    rw [List.mem_map] at hx
    obtain ⟨i, -, rfl⟩ := hx
    exact le_min (h1 i) h2
  · have hb := List.sum_le_card_nsmul
      ((solverIndices solver).map
        (fun i => ComputeScore (solver.EvaluateModelOnPoint m i) thr)) thr ?_
    · rw [List.length_map] at hb
      have hlen : (solverIndices solver).length = solver.num_data.toNat := by
        simp [solverIndices]
      rw [hlen, nsmul_eq_mul] at hb
      refine le_trans hb (le_of_eq ?_)
      congr 1
      have := Int.toNat_of_nonneg h3
      exact_mod_cast congrArg (fun z : ℤ => (z : ℚ)) this
    · intro x hx
      rw [List.mem_map] at hx
      obtain ⟨i, -, rfl⟩ := hx
      exact min_le_right _ _

/-! ### Witnesses -/

/-- Witness for C5: concrete run where the minimal solver never produces a
model; the hypotheses of the amended theorem are satisfied and its
conclusion holds at this input. -/
theorem C5_no_improvement_witness :
    (∀ s, (noModelSolver.MinimalSolver s).1 ≤ 0
        ∨ (noModelSolver.MinimalSolver s).2 = []) ∧
    ((EstimateModel exEnv exOpts noModelSolver 7 dirtyStats).1 = 0 ∧
     (EstimateModel exEnv exOpts noModelSolver 7 dirtyStats).2.1 = 7 ∧
     (EstimateModel exEnv exOpts noModelSolver 7
         dirtyStats).2.2.best_num_inliers = 0 ∧
     (EstimateModel exEnv exOpts noModelSolver 7
         dirtyStats).2.2.best_model_score = ⊤) :=
  ⟨fun _ => Or.inl (le_refl 0),
   C5_no_improvement exEnv exOpts noModelSolver 7 dirtyStats
     (fun _ => Or.inl (le_refl 0))⟩

/-- Witness for C6: concrete solver with `min_sample_size = 2 > 1 =
num_data`; the hypothesis of the theorem is satisfied and its conclusion
holds at this input. -/
theorem C6_insufficient_data_witness :
    (tooFewDataSolver.min_sample_size > tooFewDataSolver.num_data ∨
      tooFewDataSolver.min_sample_size ≤ 0) ∧
    EstimateModel exEnv exOpts tooFewDataSolver 0 dirtyStats
      = (0, 0,
          { num_iterations := 0, best_num_inliers := 0, best_model_score := ⊤,
            inlier_ratio := 0, inlier_indices := [] }) :=
  ⟨Or.inl (by decide),
   C6_insufficient_data exEnv exOpts tooFewDataSolver 0 dirtyStats
     (Or.inl (by decide))⟩

/-- Witness for C8: concrete run (one data point, minimal sample size 1,
iteration range `[1, 1]`) satisfying all hypotheses; the bounds hold at
this input. -/
theorem C8_iteration_bounds_witness :
    (0 < noModelSolver.min_sample_size ∧
     noModelSolver.min_sample_size ≤ noModelSolver.num_data ∧
     exOpts.min_num_iterations ≤ exOpts.max_num_iterations) ∧
    ((exOpts.min_num_iterations
        ≤ (EstimateModel exEnv exOpts noModelSolver 0
            dirtyStats).2.2.num_iterations ∧
      (EstimateModel exEnv exOpts noModelSolver 0
          dirtyStats).2.2.num_iterations ≤ exOpts.max_num_iterations) ∧
     (∀ ε : ℚ, exOpts.min_num_iterations
        ≤ NumRequiredIterationsQ exEnv.iterOracle ε exOpts.min_num_iterations
            exOpts.max_num_iterations)) :=
  ⟨⟨by decide, by decide, by decide⟩,
   C8_iteration_bounds exEnv exOpts noModelSolver 0 dirtyStats
     (by decide) (by decide) (by decide)⟩

/-- Witness for C9: the three-point solver with all residuals zero and
threshold `1` satisfies the hypotheses; the score bounds hold at this
input. -/
theorem C9_score_bounds_witness :
    (∀ i : ℤ, 0 ≤ zeroResidualSolver.EvaluateModelOnPoint 0 i) ∧
    (0 : ℚ) ≤ 1 ∧ (0 : ℤ) ≤ zeroResidualSolver.num_data ∧
    (0 ≤ ScoreModel zeroResidualSolver 0 1 ∧
     ScoreModel zeroResidualSolver 0 1 ≤ (zeroResidualSolver.num_data : ℚ) * 1) :=
  ⟨fun _ => le_refl 0, by decide, by decide,
   C9_score_bounds zeroResidualSolver 0 1 (fun _ => le_refl 0)
     (by decide) (by decide)⟩

lemma irlsLoop_trace {Model R : Type} (env : LOEnv Model R)
    (options : LORansacOptions) (solver : Solver Model) (d : ℚ) (k : ℕ) :
    ∀ (thresh : ℚ) (m : Model) (st : LOState Model R),
      (irlsLoop env options solver d k thresh m st).2
        = (List.range k).map (fun i : ℕ => thresh - (i : ℚ) * d) := by
  induction k with
  | zero => intro thresh m st; simp [irlsLoop]
  | succ k ih =>
    intro thresh m st
    simp only [irlsLoop, ih]
    rw [List.range_succ_eq_map, List.map_cons, List.map_map]
    congr 1
    · simp
    · refine List.map_congr_left ?_
      intro i _
      simp only [Function.comp_apply, Nat.succ_eq_add_one]
      push_cast
      ring

/-- Claim C3 (amended): within each LO step, after `NonMinimalSolver`
succeeds and the candidate is scored, `num_lsq_iterations + 1` least-squares
passes are performed: one initial fit at `θ = τ²` (ransac.h line 338)
followed by the annealing loop, whose `num_lsq_iterations` passes start at
`θ = threshold_multiplier · τ²` and decrement `θ` by
`(threshold_multiplier − 1) · τ² / (num_lsq_iterations − 1)` after each
pass, so that the final annealing pass fits with `θ = τ²` (requires
`num_lsq_iterations ≥ 2`). -/
theorem C3_lsq_threshold_schedule {Model R : Type} (env : LOEnv Model R)
    (options : LORansacOptions) (solver : Solver Model)
    (inliers_base : List ℤ) (kNonMinSampleSize : ℤ) (st : LOState Model R)
    (hn : 2 ≤ options.num_lsq_iterations)
    (hs : (solver.NonMinimalSolver
        (env.shuffle kNonMinSampleSize inliers_base st.rng).1).isSome) :
    (loStep env options solver inliers_base kNonMinSampleSize st).2
      = options.squared_inlier_threshold ::
          (List.range options.num_lsq_iterations.toNat).map
            (fun i : ℕ => options.threshold_multiplier * options.squared_inlier_threshold
              - (i : ℚ) * ((options.threshold_multiplier - 1)
                  * options.squared_inlier_threshold
                  / ((options.num_lsq_iterations - 1 : ℤ) : ℚ))) ∧
    (loStep env options solver inliers_base kNonMinSampleSize st).2.length
      = options.num_lsq_iterations.toNat + 1 ∧
    (loStep env options solver inliers_base kNonMinSampleSize st).2.getD
        options.num_lsq_iterations.toNat 0
      = options.squared_inlier_threshold := by
  obtain ⟨m, hm⟩ := Option.isSome_iff_exists.1 hs
  have htr : (loStep env options solver inliers_base kNonMinSampleSize st).2
      = options.squared_inlier_threshold ::
          (List.range options.num_lsq_iterations.toNat).map
            (fun i : ℕ => options.threshold_multiplier * options.squared_inlier_threshold
              - (i : ℚ) * ((options.threshold_multiplier - 1)
                  * options.squared_inlier_threshold
                  / ((options.num_lsq_iterations - 1 : ℤ) : ℚ))) := by
    simp only [loStep, hm]
    rw [irlsLoop_trace]
  refine ⟨htr, ?_, ?_⟩
  · rw [htr]
    simp
  · rw [htr]
    have hN : 2 ≤ options.num_lsq_iterations.toNat := by omega
    obtain ⟨n', hn'⟩ : ∃ n', options.num_lsq_iterations.toNat = n' + 1 :=
      ⟨options.num_lsq_iterations.toNat - 1, by omega⟩
    rw [hn', List.getD_cons_succ, List.getD_eq_getElem?_getD,
      List.getElem?_map, List.getElem?_range (by omega : n' < n' + 1)]
    simp only [Option.map_some', Option.getD_some]
    have hq : ((options.num_lsq_iterations - 1 : ℤ) : ℚ) ≠ 0 := by
      rw [Int.cast_ne_zero]
      omega
    have hcast : ((n' : ℕ) : ℚ) = ((options.num_lsq_iterations - 1 : ℤ) : ℚ) := by
      have : (n' : ℤ) = options.num_lsq_iterations - 1 := by omega
      exact_mod_cast this
    rw [hcast]
    field_simp
    push_cast at hq
    rw [mul_div_cancel_left₀ _ hq]
    ring

/-- Claim C3, counterexample to the original wording: in a concrete LO step
where the non-minimal solver succeeds and `num_lsq_iterations = 2`, three
least-squares fits are performed (thresholds `τ², m·τ², τ²`), not two: the
claim misses the initial fit at `θ = τ²` before the annealing loop. -/
theorem C3_counterexample :
    (bugSolver.NonMinimalSolver
        (exEnv.shuffle 1 []
          (LOState.mk (5 : ℚ) ((1 : ℚ) : Score) ()).rng).1).isSome ∧
    exOpts.num_lsq_iterations.toNat = 2 ∧
    (loStep exEnv exOpts bugSolver [] 1
        (LOState.mk (5 : ℚ) ((1 : ℚ) : Score) ())).2.length
      ≠ exOpts.num_lsq_iterations.toNat := by
  refine ⟨rfl, rfl, ?_⟩
  decide

/-- Witness for C3: the hypotheses of the amended schedule theorem hold at
the concrete LO step used in the counterexample, and its conclusion holds
there. -/
theorem C3_lsq_threshold_schedule_witness :
    (2 ≤ exOpts.num_lsq_iterations ∧
     (bugSolver.NonMinimalSolver
        (exEnv.shuffle 1 []
          (LOState.mk (5 : ℚ) ((1 : ℚ) : Score) ()).rng).1).isSome) ∧
    ((loStep exEnv exOpts bugSolver [] 1
         (LOState.mk (5 : ℚ) ((1 : ℚ) : Score) ())).2
       = exOpts.squared_inlier_threshold ::
           (List.range exOpts.num_lsq_iterations.toNat).map
             (fun i : ℕ => exOpts.threshold_multiplier * exOpts.squared_inlier_threshold
               - (i : ℚ) * ((exOpts.threshold_multiplier - 1)
                   * exOpts.squared_inlier_threshold
                   / ((exOpts.num_lsq_iterations - 1 : ℤ) : ℚ))) ∧
     (loStep exEnv exOpts bugSolver [] 1
         (LOState.mk (5 : ℚ) ((1 : ℚ) : Score) ())).2.length
       = exOpts.num_lsq_iterations.toNat + 1 ∧
     (loStep exEnv exOpts bugSolver [] 1
         (LOState.mk (5 : ℚ) ((1 : ℚ) : Score) ())).2.getD
         exOpts.num_lsq_iterations.toNat 0
       = exOpts.squared_inlier_threshold) :=
  ⟨⟨by decide, rfl⟩,
   C3_lsq_threshold_schedule exEnv exOpts bugSolver [] 1
     (LOState.mk (5 : ℚ) ((1 : ℚ) : Score) ()) (by decide) rfl⟩

/-- Claim C1, evaluation at the failing input: the minimal solver proposes
model `5` (score `1`), and `LocalOptimization` returns the strictly better
refined pair (model `0`, score `0`).  `EstimateModel` then adopts the
refined score `0` as `best_model_score`, but stores the minimal model `5`
into `*best_model` (ransac.h line 201 passes `best_minimal_model` instead
of `refined_model`), not the refined model `0` the claim requires. -/
theorem C1_refined_model_not_stored :
    LocalOptimization exEnv exOpts bugSolver 5 ((1 : ℚ) : Score)
      = ((0 : ℚ), ((0 : ℚ) : Score)) ∧
    (EstimateModel exEnv exOpts bugSolver 0 dirtyStats).2.2.best_model_score
      = ((0 : ℚ) : Score) ∧
    (EstimateModel exEnv exOpts bugSolver 0 dirtyStats).2.1 = 5 ∧
    (5 : ℚ) ≠ 0 := by
  refine ⟨?_, ?_, ?_, by norm_num⟩ <;>
  norm_num [EstimateModel, emLoop, ResetStatistics, GetBestEstimatedModelId,
    GetBestEstimatedModelIdAux, NumRequiredIterationsQ,
    LocalOptimization, LeastSquaresFit, GetInliers, solverIndices, ScoreModel,
    ComputeScore, UpdateBestModel, loStepsLoop, loStep, irlsLoop, exEnv, exOpts,
    bugSolver, dirtyStats, List.range_succ, min_def, WithTop.coe_lt_coe,
    WithTop.coe_lt_top]

lemma log_ratio_bounds :
    (142.5 : ℝ) < Real.log 10000 / Real.log (16/15) ∧
    Real.log 10000 / Real.log (16/15) ≤ 143.5 := by
  have hb : 0 < Real.log (16/15 : ℝ) := Real.log_pos (by norm_num)
  constructor
  · rw [lt_div_iff₀ hb]
    have key : ((16/15 : ℝ)) ^ (285:ℕ) < (10000 : ℝ) ^ (2:ℕ) := by
      rw [div_pow, div_lt_iff₀ (by positivity)]
      have h : (16:ℕ)^285 < 10000^2 * 15^285 := by norm_num
      exact_mod_cast h
    have hlog := Real.log_lt_log (by positivity) key
    rw [Real.log_pow, Real.log_pow] at hlog
    push_cast at hlog
    linarith
  · rw [div_le_iff₀ hb]
    have key : (10000 : ℝ) ^ (2:ℕ) ≤ ((16/15 : ℝ)) ^ (287:ℕ) := by
      rw [div_pow, le_div_iff₀ (by positivity)]
      have h : (10000:ℕ)^2 * 15^287 ≤ 16^287 := by norm_num
      exact_mod_cast h
    have hlog := Real.log_le_log (by positivity) key
    rw [Real.log_pow, Real.log_pow] at hlog
    push_cast at hlog
    linarith

lemma numReqIter_concrete :
    NumRequiredIterationsR 0.5 0.0001 4 100 10000 = 144 := by
  unfold NumRequiredIterationsR
  rw [if_neg (by norm_num), if_neg (by norm_num)]
  have hpow : (0.5 : ℝ) ^ (((4:ℤ)) : ℝ) = 1/16 := by
    rw [show (((4:ℤ)) : ℝ) = ((4:ℕ) : ℝ) by norm_num, Real.rpow_natCast]
    norm_num
  have h1 : (1 : ℝ) - (0.5:ℝ) ^ (((4:ℤ)) : ℝ) = 15/16 := by
    rw [hpow]
    norm_num
  simp only [h1]
  have h2 : Real.log (0.0001 : ℝ) = -Real.log 10000 := by
    rw [show (0.0001 : ℝ) = (10000 : ℝ)⁻¹ by norm_num, Real.log_inv]
  have h3 : Real.log ((15:ℝ)/16) = -Real.log (16/15) := by
    rw [show ((15:ℝ)/16) = ((16:ℝ)/15)⁻¹ by norm_num, Real.log_inv]
  rw [h2, h3, neg_div_neg_eq]
  have hceil : ⌈Real.log 10000 / Real.log ((16:ℝ)/15) + 0.5⌉ = (144 : ℤ) := by
    rw [Int.ceil_eq_iff]
    obtain ⟨hlo, hhi⟩ := log_ratio_bounds
    constructor
    · push_cast
      linarith
    · push_cast
      linarith
  rw [hceil]
  decide

/-- Claim C4 (amended): `NumRequiredIterations(0.5, 0.0001, 4, 100, 10000)`
returns `144` (the formula gives `ceil(ln 1e-4 / ln(1 - 0.5^4) + 0.5) =
ceil(143.21...) = 144`, not `140` as the spec states); for inlier ratio `0`
it returns `max_iterations`, and for inlier ratio `1` it returns
`min_iterations`. -/
theorem C4_num_required_iterations :
    NumRequiredIterationsR 0.5 0.0001 4 100 10000 = 144 ∧
    NumRequiredIterationsR 0 0.0001 4 100 10000 = 10000 ∧
    NumRequiredIterationsR 1 0.0001 4 100 10000 = 100 := by
  refine ⟨numReqIter_concrete, ?_, ?_⟩
  · unfold NumRequiredIterationsR
    rw [if_pos (le_refl (0:ℝ))]
  · unfold NumRequiredIterationsR
    rw [if_neg (by norm_num), if_pos (le_refl (1:ℝ))]

/-- Claim C4, counterexample to the original value: the call does not
return `140`. -/
theorem C4_counterexample :
    NumRequiredIterationsR 0.5 0.0001 4 100 10000 ≠ 140 := by
  rw [numReqIter_concrete]
  norm_num

end RansacLib

